import Mathlib

/-!
Shallow embedding of the command-line utility in `inspect_spacy_model.py`
(the spaCy Model Inspector).

Modelling conventions:

* Standard output is modelled as a `List String`, one element per Python
  `print` call, holding exactly the argument of that call (embedded
  newline characters are kept inside the element).
* The external spaCy library is modelled by an environment `Env`:
  `models` maps a model name to the loaded model (`none` models the
  `OSError` raised by `spacy.load`), `explain` models `spacy.explain`
  (`none` models Python `None`), `packages` models the installed package
  list from `pkg_resources` (`none` models the `ImportError` branch), and
  `loadErr` gives the `OSError` text shown by `--list` for a package that
  fails to load.
* A loaded model is a `Model` record.  Metadata keys that the script
  reads unconditionally with `meta[...]` (`name`, `version`,
  `description`, `lang`, `pipeline`) are required fields; keys read with
  `meta.get(..., "Unknown")` are `Option` fields.  `extraMeta` carries
  any further metadata entries and `config` carries the model's
  configuration mapping, so that theorems can speak about whether those
  influence the output.
* The model directory is a tree of `FSItem`s.  A directory's listing is
  the already-sorted result of `sorted(path.iterdir())`; `denied` set on
  a directory models `iterdir` raising `PermissionError`.  `statError`
  on the model models any exception raised inside the storage-size
  `try` block (for a fixed filesystem the two `rglob` passes of that
  block fail or succeed together).
* Python float formatting `f"{x:.1f}"` for the megabyte figures is
  approximated by exact rational rounding to one decimal digit.
-/

namespace Inspect

/-- The single-quote character, as a string, used by Python `repr`. -/
def sq : String := String.singleton (Char.ofNat 39)

/-- Python `repr` of a string (quote nuances for strings that themselves
contain quotes are not modelled). -/
def pyRepr (s : String) : String := sq ++ s ++ sq

/-- Python `repr` of a list of strings, as interpolated by an f-string. -/
def pyListStr (l : List String) : String :=
  "[" ++ String.intercalate ", " (l.map pyRepr) ++ "]"

/-- Python `repr` of a pair of strings. -/
def pyPair (p : String × String) : String :=
  "(" ++ pyRepr p.1 ++ ", " ++ pyRepr p.2 ++ ")"

/-- Python `repr` of a list of pairs of strings. -/
def pyListPair (l : List (String × String)) : String :=
  "[" ++ String.intercalate ", " (l.map pyPair) ++ "]"

/-- Insert thousands separators into a reversed digit list (Python
format spec with a comma, as in `f"{n:,}"`). -/
def commaGroup : List Char → List Char
  | a :: b :: c :: d :: rest => a :: b :: c :: ',' :: commaGroup (d :: rest)
  | l => l

/-- Python `f"{n:,}"` for a natural number. -/
def commaFmt (n : Nat) : String :=
  String.mk ((commaGroup (toString n).data.reverse).reverse)

/-- Python `f"{bytes / (1024*1024):.1f}"`, approximated by exact
rational rounding (round half up) to one decimal digit. -/
def mbFmt (bytes : Nat) : String :=
  let tenths := (bytes * 10 + 524288) / 1048576
  toString (tenths / 10) ++ "." ++ toString (tenths % 10)

/-- One entry of the model directory tree.  A directory stores the
sorted listing that `sorted(path.iterdir())` would return; `denied`
models `iterdir` raising `PermissionError` for that directory. -/
inductive FSItem where
  | file (name : String) (size : Nat)
  | dir (name : String) (denied : Bool) (children : List FSItem)

/-- `item.name` of a directory entry. -/
def FSItem.name : FSItem → String
  | .file n _ => n
  | .dir n _ _ => n

mutual

/-- The `print_tree` helper of `inspect_spacy_model`, applied to the
listing of one directory: `denied` tells whether `iterdir` on that
directory raises `PermissionError`, `items` is its sorted listing.
Mirrors the top `current_depth >= max_depth` guard and the
`except PermissionError` handler. -/
def print_tree (denied : Bool) (items : List FSItem) (pre : String)
    (maxd curd : Nat) : List String :=
  if maxd ≤ curd then []
  else if denied then [pre ++ "└── [Permission Denied]"]
  else printItems items pre maxd curd
termination_by (maxd - curd, items.length, 1)

/-- The `for i, item in enumerate(items)` loop of `print_tree`:
prints each entry with the box-drawing connector (`is_last` decides
which) and recurses into subdirectories while `current_depth <
max_depth - 1`. -/
def printItems (items : List FSItem) (pre : String)
    (maxd curd : Nat) : List String :=
  match items with
  | [] => []
  | item :: rest =>
    let isLast := rest.isEmpty
    let cp := if isLast then "└── " else "├── "
    (pre ++ cp ++ item.name) ::
      ((match item with
        | FSItem.dir _ d ch =>
          if curd < maxd - 1 then
            print_tree d ch (pre ++ (if isLast then "    " else "│   ")) maxd
              (curd + 1)
          else []
        | FSItem.file _ _ => []) ++ printItems rest pre maxd curd)
termination_by (maxd - curd, items.length, 0)

end

/-- `f.is_file()` entries produced by `model_path.rglob("*")`, with
their `stat().st_size`, in preorder. -/
def rglobFiles : List FSItem → List (String × Nat)
  | [] => []
  | FSItem.file n s :: rest => (n, s) :: rglobFiles rest
  | FSItem.dir _ _ ch :: rest => rglobFiles ch ++ rglobFiles rest

/-- `sum(f.stat().st_size for f in model_path.rglob("*") if f.is_file())`. -/
def totalSize (items : List FSItem) : Nat :=
  ((rglobFiles items).map Prod.snd).sum

/-- One token of the processed test document: its `text`, `pos_` and
`lemma_` attributes as computed by the loaded pipeline. -/
structure Tok where
  text : String
  pos : String
  lem : String
deriving DecidableEq

/-- A loaded spaCy model, as far as the script observes it. -/
structure Model where
  /-- `nlp._path`, as rendered in an f-string. -/
  path : String
  /-- `meta['name']` (required: the script indexes it directly). -/
  metaName : String
  /-- `meta['version']`. -/
  metaVersion : String
  /-- `meta['description']`. -/
  metaDescription : String
  /-- `meta['lang']`. -/
  metaLang : String
  /-- `meta['pipeline']`, a list of component names. -/
  metaPipeline : List String
  /-- `meta.get('size', 'Unknown')`: `none` when the key is absent. -/
  metaSize : Option String
  /-- `meta.get('license', 'Unknown')`. -/
  metaLicense : Option String
  /-- `meta.get('author', 'Unknown')`. -/
  metaAuthor : Option String
  /-- `meta.get('url', 'Unknown')`. -/
  metaUrl : Option String
  /-- Any further entries of the metadata mapping, which the script
  never reads. -/
  extraMeta : List (String × String)
  /-- The model's configuration mapping (`config.cfg` as loaded by the
  library). -/
  config : List (String × String)
  /-- `nlp.pipeline`: component name and `type(component).__name__`. -/
  pipeline : List (String × String)
  /-- `len(nlp.vocab)`. -/
  vocabLen : Nat
  /-- `nlp.vocab.vectors.shape[0]`. -/
  vectorsRows : Nat
  /-- `nlp.vocab.vectors.shape[1]`. -/
  vectorsCols : Nat
  /-- `nlp.get_pipe("ner").labels` when `nlp.has_pipe("ner")`. -/
  nerLabels : Option (List String)
  /-- `nlp.get_pipe("tagger").labels` when `nlp.has_pipe("tagger")`. -/
  taggerLabels : Option (List String)
  /-- The tokens of `nlp(test_text)`. -/
  docToks : List Tok
  /-- `[(ent.text, ent.label_) for ent in doc.ents]`. -/
  docEnts : List (String × String)
  /-- Whether `iterdir` on the model root raises `PermissionError`. -/
  fsDenied : Bool
  /-- The sorted listing of the model root directory. -/
  fsItems : List FSItem
  /-- `some e` when the storage-size `try` block raises an exception
  whose rendered text is `e`. -/
  statError : Option String

/-- The external environment: the spaCy installation as the script
observes it. -/
structure Env where
  /-- `spacy.load`: `none` models the `OSError` for a missing model. -/
  models : String → Option Model
  /-- `spacy.explain`: `none` models Python `None`. -/
  explain : String → Option String
  /-- Installed package names from `pkg_resources.working_set`;
  `none` models the `ImportError` branch. -/
  packages : Option (List String)
  /-- The `OSError` text printed by `--list` for a model package that
  fails to load. -/
  loadErr : String → String

/-- Override the environment so that `name` loads as `m`. -/
def setModel (env : Env) (name : String) (m : Model) : Env :=
  { env with models := fun n => if n = name then some m else env.models n }

/-- `spacy.explain(x) or dflt`: Python `or` falls through both on
`None` and on the empty (falsy) string. -/
def explainOr (env : Env) (x dflt : String) : String :=
  match env.explain x with
  | some e => if e = "" then dflt else e
  | none => dflt

/-- The "Model Location" section. -/
def locationLines (m : Model) : List String :=
  ["\n📍 Model Location:", "   " ++ m.path]

/-- The "Model Metadata" section; the last three lines are printed only
with `--verbose`. -/
def metaLines (m : Model) (verbose : Bool) : List String :=
  ["\n📊 Model Metadata:",
   "   Name: " ++ m.metaName,
   "   Version: " ++ m.metaVersion,
   "   Description: " ++ m.metaDescription,
   "   Language: " ++ m.metaLang,
   "   Pipeline: " ++ pyListStr m.metaPipeline,
   "   Size: ~" ++ m.metaSize.getD "Unknown"] ++
  (if verbose then
    ["   License: " ++ m.metaLicense.getD "Unknown",
     "   Author: " ++ m.metaAuthor.getD "Unknown",
     "   URL: " ++ m.metaUrl.getD "Unknown"]
   else [])

/-- The "Pipeline Components" section. -/
def pipelineLines (m : Model) : List String :=
  "\n🔧 Pipeline Components:" ::
    m.pipeline.map (fun p => "   - " ++ p.1 ++ ": " ++ p.2)

/-- The "Vocabulary" section: the vector lines are printed only when
`nlp.vocab.vectors.shape[0] > 0`. -/
def vocabLines (m : Model) : List String :=
  ["\n📚 Vocabulary:", "   Total tokens: " ++ commaFmt m.vocabLen] ++
  (if 0 < m.vectorsRows then
    ["   Vector dimensions: " ++ toString m.vectorsCols,
     "   Vectors available: " ++ commaFmt m.vectorsRows]
   else ["   Vectors: No word vectors available"])

/-- The "Named Entity Types" section, present only when the model has a
`ner` pipe. -/
def nerLines (env : Env) (m : Model) : List String :=
  match m.nerLabels with
  | none => []
  | some labels =>
    "\n🏷️  Named Entity Types:" ::
      labels.map (fun l => "   - " ++ l ++ ": " ++ explainOr env l "Entity type")

/-- One formatted POS-tag line. -/
def tagLine (env : Env) (t : String) : String :=
  "   - " ++ t ++ ": " ++ explainOr env t "Part-of-speech tag"

/-- The "POS Tags (sample)" section: the first 10 labels, and a
remainder count when there are more than 10. -/
def posLines (env : Env) (m : Model) : List String :=
  match m.taggerLabels with
  | none => []
  | some labels =>
    "\n📝 POS Tags (sample):" ::
      ((labels.take 10).map (tagLine env) ++
       (if 10 < labels.length then
         ["   ... and " ++ toString (labels.length - 10) ++ " more"]
        else []))

/-- The fixed sample sentence. -/
def test_text : String :=
  "Apple Inc. is looking at buying a startup in San Francisco for $1 billion."

/-- The "Model Test" section; the POS-tag and lemma lines are printed
only with `--verbose`. -/
def testLines (m : Model) (verbose : Bool) : List String :=
  ["\n🧪 Model Test:",
   "   Input: " ++ test_text,
   "   Tokens: " ++ pyListStr (m.docToks.map Tok.text)] ++
  (if m.docEnts.isEmpty then ["   Entities: No entities detected"]
   else ["   Entities: " ++ pyListPair m.docEnts]) ++
  (if verbose then
    ["   POS Tags: " ++ pyListPair (m.docToks.map (fun t => (t.text, t.pos))),
     "   Lemmas: " ++
       pyListPair ((m.docToks.filter (fun t => t.text ≠ t.lem)).map
         (fun t => (t.text, t.lem)))]
   else [])

/-- The "Model File Structure" section (verbose only): the tree walk
from the model root with `max_depth = 3`, `current_depth = 0`. -/
def fileStructureLines (m : Model) : List String :=
  "\n📁 Model File Structure:" :: print_tree m.fsDenied m.fsItems "" 3 0

/-- The "Storage Information" section: the whole `try` body, or the
`except Exception` line when the size computation raises. -/
def storageLines (m : Model) (verbose : Bool) : List String :=
  "\n💾 Storage Information:" ::
    (match m.statError with
     | some e => ["   Could not calculate size: " ++ e]
     | none =>
       ["   Total model size: " ++ mbFmt (totalSize m.fsItems) ++ " MB"] ++
       (if verbose then
         "\n   Largest files:" ::
           (((rglobFiles m.fsItems).mergeSort
               (fun a b => decide (b.2 ≤ a.2))).take 5).map
             (fun p => "   - " ++ p.1 ++ ": " ++ mbFmt p.2 ++ " MB")
        else []))

/-- Everything `inspect_spacy_model` prints after a successful load,
in order. -/
def bodyLines (env : Env) (m : Model) (verbose : Bool) : List String :=
  locationLines m ++ metaLines m verbose ++ pipelineLines m ++
  vocabLines m ++ nerLines env m ++ posLines env m ++
  testLines m verbose ++
  (if verbose then fileStructureLines m else []) ++
  storageLines m verbose

/-- `inspect_spacy_model(model_name, verbose)`: the printed output and
the returned boolean (`False` exactly when `spacy.load` raises
`OSError`). -/
def inspect_spacy_model (env : Env) (model_name : String) (verbose : Bool) :
    List String × Bool :=
  let hdr := "🔍 Inspecting spaCy model: " ++ model_name ++ "\n"
  match env.models model_name with
  | none =>
    ([hdr,
      "❌ Model " ++ sq ++ model_name ++ sq ++ " not found.",
      "💡 Install it with: python -m spacy download " ++ model_name,
      "\n🔍 Use --list to see available models"], false)
  | some nlp =>
    (hdr :: "✅ Model loaded successfully!" :: bodyLines env nlp verbose, true)

/-- The language and size fragments used to recognise spaCy model
packages among installed packages. -/
def langFrags : List String :=
  ["en_", "de_", "fr_", "es_", "pt_", "it_", "nl_", "zh_"]

/-- The size fragments (`_sm`, `_md`, `_lg`, `_trf`). -/
def sizeFrags : List String := ["_sm", "_md", "_lg", "_trf"]

/-- The package filter of `list_available_models`: Python `in` is
substring containment. -/
def isSpacyModelPkg (p : String) : Bool :=
  (langFrags.any (fun l => decide (l.data <:+: p.data))) &&
  (sizeFrags.any (fun s => decide (s.data <:+: p.data)))

/-- One line of the `--list` report for a recognised model package. -/
def listModelLine (env : Env) (model : String) : String :=
  match env.models model with
  | some nlp =>
    "   ✅ " ++ model ++ " (v" ++ nlp.metaVersion ++ ", ~" ++
      nlp.metaSize.getD "Unknown" ++ ")"
  | none =>
    "   ❌ " ++ model ++ " (installation issue) -- error: " ++ env.loadErr model

/-- `list_available_models()`: the printed output. -/
def list_available_models (env : Env) : List String :=
  "🔍 Searching for installed spaCy models...\n" ::
    (match env.packages with
     | none =>
       ["❌ Could not check installed packages. Make sure spaCy is installed."]
     | some pkgs =>
       let spacy_models := pkgs.filter isSpacyModelPkg
       if spacy_models.isEmpty then
         ["❌ No spaCy models found.",
          "\n💡 Install a model with: python -m spacy download en_core_web_sm"]
       else
         "📦 Found spaCy models:" ::
           (spacy_models.mergeSort (fun a b => decide (a ≤ b))).map
             (listModelLine env))

/-- The parsed command line. -/
structure Args where
  /-- The positional model argument, default `en_core_web_sm`. -/
  model : String := "en_core_web_sm"
  list : Bool := false
  verbose : Bool := false
  version : Bool := false

/-- `main()`: output and process exit code.  `argparse` handles
`--version` during parsing (printing the version string and exiting 0);
`--list` returns from `main` with exit code 0; otherwise the exit code
is 1 exactly when `inspect_spacy_model` returned `False`. -/
def mainRun (env : Env) (args : Args) : List String × Nat :=
  if args.version then (["spaCy Model Inspector 1.0.0"], 0)
  else if args.list then (list_available_models env, 0)
  else
    let r := inspect_spacy_model env args.model args.verbose
    (r.1, if r.2 then 0 else 1)

/-! ### Concrete fixtures for closed evaluation -/

/-- A small concrete directory tree for a sample model. -/
def sampleFS : List FSItem :=
  [FSItem.dir "ner" false [FSItem.file "model" 2097152],
   FSItem.file "meta.json" 1024,
   FSItem.dir "vocab" false [FSItem.file "strings.json" 524288]]

/-- A concrete sample model. -/
def sampleModel : Model where
  path := "/site-packages/en_core_web_sm/en_core_web_sm-3.7.1"
  metaName := "core_web_sm"
  metaVersion := "3.7.1"
  metaDescription := "English pipeline"
  metaLang := "en"
  metaPipeline := ["tok2vec", "tagger", "ner"]
  metaSize := some "12 MB"
  metaLicense := none
  metaAuthor := some "Explosion"
  metaUrl := none
  extraMeta := []
  config := [("nlp.lang", "en")]
  pipeline := [("tok2vec", "Tok2Vec"), ("tagger", "Tagger"),
               ("ner", "EntityRecognizer")]
  vocabLen := 773
  vectorsRows := 0
  vectorsCols := 0
  nerLabels := some ["ORG", "GPE"]
  taggerLabels := some ["NN", "VB"]
  docToks := [⟨"Apple", "PROPN", "Apple"⟩, ⟨"buying", "VERB", "buy"⟩]
  docEnts := [("Apple Inc.", "ORG")]
  fsDenied := false
  fsItems := sampleFS
  statError := none

/-- A concrete environment in which only `en_core_web_sm` is installed. -/
def sampleEnv : Env where
  models := fun n => if n = "en_core_web_sm" then some sampleModel else none
  explain := fun x =>
    if x = "ORG" then some "Companies, agencies, institutions, etc." else none
  packages := some ["pip", "numpy"]
  loadErr := fun _ => ""

/-- A variant of the sample model whose root listing is permission-denied
and whose storage-size computation raises. -/
def failModel : Model :=
  { sampleModel with fsDenied := true, statError := some "boom" }

/-- An environment in which `en_core_web_sm` loads as `failModel`. -/
def failEnv : Env :=
  { sampleEnv with
    models := fun n => if n = "en_core_web_sm" then some failModel else none }

/-! ### Claims -/

/-- Claim C1: an invocation with a model name that is not installed
(`spacy.load` raises `OSError`) exits with code 1 and prints an error
message line containing the requested model name, together with a
suggested remediation command. -/
theorem c1_missing_model_exit_and_message (env : Env) (name : String)
    (verbose : Bool) (h : env.models name = none) :
    (mainRun env { model := name, verbose := verbose }).2 = 1 ∧
    ("❌ Model " ++ sq ++ name ++ sq ++ " not found.") ∈
      (mainRun env { model := name, verbose := verbose }).1 ∧
    ("💡 Install it with: python -m spacy download " ++ name) ∈
      (mainRun env { model := name, verbose := verbose }).1 ∧
    name.data <:+: ("❌ Model " ++ sq ++ name ++ sq ++ " not found.").data := by
  unfold mainRun inspect_spacy_model
  refine ⟨by simp [h], by simp [h], by simp [h], ?_⟩
  exact ⟨("❌ Model " ++ sq).data, (sq ++ " not found.").data, by
    simp [String.data_append]⟩

/-- Evaluation of `c1_missing_model_exit_and_message` at a concrete
environment and model name. -/
theorem c1_missing_model_witness :
    (mainRun sampleEnv { model := "nosuch_model", verbose := false }).2 = 1 ∧
    ("❌ Model " ++ sq ++ "nosuch_model" ++ sq ++ " not found.") ∈
      (mainRun sampleEnv { model := "nosuch_model", verbose := false }).1 ∧
    ("💡 Install it with: python -m spacy download " ++ "nosuch_model") ∈
      (mainRun sampleEnv { model := "nosuch_model", verbose := false }).1 ∧
    ("nosuch_model").data <:+:
      ("❌ Model " ++ sq ++ "nosuch_model" ++ sq ++ " not found.").data :=
  c1_missing_model_exit_and_message sampleEnv "nosuch_model" false rfl

/-- Claim C4: invoking `--list` when no installed package passes the
spaCy-model filter prints the "not found" message plus an installation
hint and exits with code 0. -/
theorem c4_list_no_models (env : Env) (pkgs : List String) (args : Args)
    (hp : env.packages = some pkgs)
    (hf : pkgs.filter isSpacyModelPkg = [])
    (hl : args.list = true) (hv : args.version = false) :
    (mainRun env args).2 = 0 ∧
    "❌ No spaCy models found." ∈ (mainRun env args).1 ∧
    "\n💡 Install a model with: python -m spacy download en_core_web_sm" ∈
      (mainRun env args).1 := by
  unfold mainRun list_available_models
  simp [hl, hv, hp, hf]

/-- Evaluation of `c4_list_no_models` at a concrete environment with no
spaCy model packages installed. -/
theorem c4_list_no_models_witness :
    (mainRun sampleEnv { list := true }).2 = 0 ∧
    "❌ No spaCy models found." ∈ (mainRun sampleEnv { list := true }).1 ∧
    "\n💡 Install a model with: python -m spacy download en_core_web_sm" ∈
      (mainRun sampleEnv { list := true }).1 :=
  c4_list_no_models sampleEnv ["pip", "numpy"] { list := true } rfl (by decide)
    rfl rfl

/-- Claim C6: an invocation with a model name that loads successfully
exits with code 0, and the output begins with the sentinel header line
announcing the inspection of that model. -/
theorem c6_success_exit_and_header (env : Env) (name : String) (m : Model)
    (verbose : Bool) (h : env.models name = some m) :
    (mainRun env { model := name, verbose := verbose }).2 = 0 ∧
    (mainRun env { model := name, verbose := verbose }).1.head? =
      some ("🔍 Inspecting spaCy model: " ++ name ++ "\n") := by
  unfold mainRun inspect_spacy_model
  simp [h]

/-- Evaluation of `c6_success_exit_and_header` at a concrete
environment and installed model. -/
theorem c6_success_witness :
    (mainRun sampleEnv { model := "en_core_web_sm", verbose := false }).2 = 0 ∧
    (mainRun sampleEnv { model := "en_core_web_sm", verbose := false }).1.head? =
      some ("🔍 Inspecting spaCy model: " ++ "en_core_web_sm" ++ "\n") :=
  c6_success_exit_and_header sampleEnv "en_core_web_sm" sampleModel false rfl

/-- Claim C7: invoking the tool with `--version` prints exactly the
fixed version string and performs no model inspection: the whole output
is that single line and the exit code is 0. -/
theorem c7_version_flag (env : Env) (args : Args) (h : args.version = true) :
    mainRun env args = (["spaCy Model Inspector 1.0.0"], 0) := by
  unfold mainRun
  simp [h]

/-- Evaluation of `c7_version_flag` at a concrete environment. -/
theorem c7_version_flag_witness :
    mainRun sampleEnv { version := true } = (["spaCy Model Inspector 1.0.0"], 0) :=
  c7_version_flag sampleEnv { version := true } rfl

/-- Claim C10: the vector-dimension and vector-count lines are printed
only when the vector table has a positive row count; with an empty
table the fixed no-vectors line is printed instead, so the column count
(`shape[1]`) is only consulted behind the guard. -/
theorem c10_vector_guard (m : Model) :
    (m.vectorsRows = 0 →
      vocabLines m =
        ["\n📚 Vocabulary:",
         "   Total tokens: " ++ commaFmt m.vocabLen,
         "   Vectors: No word vectors available"]) ∧
    (0 < m.vectorsRows →
      vocabLines m =
        ["\n📚 Vocabulary:",
         "   Total tokens: " ++ commaFmt m.vocabLen,
         "   Vector dimensions: " ++ toString m.vectorsCols,
         "   Vectors available: " ++ commaFmt m.vectorsRows]) := by
  constructor <;> intro h <;> simp [vocabLines, h]

/-- A variant of the sample model that carries word vectors. -/
def vecModel : Model :=
  { sampleModel with vectorsRows := 514157, vectorsCols := 300 }

/-- Evaluation of `c10_vector_guard` on a model without vectors and on
a model with vectors. -/
theorem c10_vector_guard_witness :
    vocabLines sampleModel =
      ["\n📚 Vocabulary:",
       "   Total tokens: " ++ commaFmt sampleModel.vocabLen,
       "   Vectors: No word vectors available"] ∧
    vocabLines vecModel =
      ["\n📚 Vocabulary:",
       "   Total tokens: " ++ commaFmt vecModel.vocabLen,
       "   Vector dimensions: " ++ toString vecModel.vectorsCols,
       "   Vectors available: " ++ commaFmt vecModel.vectorsRows] :=
  ⟨(c10_vector_guard sampleModel).1 rfl,
   (c10_vector_guard vecModel).2 (by decide)⟩

/-- Claim C8: with more than 10 tagger labels the POS section prints
exactly the first 10 of them followed by one remainder-count line; with
at most 10 labels it prints them all and no remainder line. -/
theorem c8_pos_label_truncation (env : Env) (m : Model) (labels : List String)
    (h : m.taggerLabels = some labels) :
    (10 < labels.length →
      posLines env m =
        "\n📝 POS Tags (sample):" ::
          ((labels.take 10).map (tagLine env) ++
           ["   ... and " ++ toString (labels.length - 10) ++ " more"])) ∧
    (labels.length ≤ 10 →
      posLines env m =
        "\n📝 POS Tags (sample):" :: labels.map (tagLine env)) := by
  constructor <;> intro hl
  · simp [posLines, h, hl]
  · have hn : ¬ 10 < labels.length := by omega
    simp [posLines, h, hn, List.take_of_length_le hl]

/-- Eleven tagger labels, for exercising the truncation branch. -/
def elevenLabels : List String :=
  ["T01", "T02", "T03", "T04", "T05", "T06", "T07", "T08", "T09", "T10", "T11"]

/-- A variant of the sample model whose tagger exposes eleven labels. -/
def elevenTagModel : Model := { sampleModel with taggerLabels := some elevenLabels }

/-- Evaluation of `c8_pos_label_truncation` on a model with eleven
tagger labels and on one with two. -/
theorem c8_pos_label_truncation_witness :
    posLines sampleEnv elevenTagModel =
      "\n📝 POS Tags (sample):" ::
        ((elevenLabels.take 10).map (tagLine sampleEnv) ++
         ["   ... and " ++ toString (elevenLabels.length - 10) ++ " more"]) ∧
    posLines sampleEnv sampleModel =
      "\n📝 POS Tags (sample):" :: ["NN", "VB"].map (tagLine sampleEnv) :=
  ⟨(c8_pos_label_truncation sampleEnv elevenTagModel elevenLabels rfl).1
     (by decide),
   (c8_pos_label_truncation sampleEnv sampleModel ["NN", "VB"] rfl).2
     (by decide)⟩

/-- With `--verbose` off, the metadata section is a sublist of the
verbose one. -/
theorem metaLines_sublist (m : Model) :
    (metaLines m false).Sublist (metaLines m true) := by
  simp [metaLines]

/-- With `--verbose` off, the model-test section is a sublist of the
verbose one. -/
theorem testLines_sublist (m : Model) :
    (testLines m false).Sublist (testLines m true) := by
  cases h : m.docEnts.isEmpty <;> simp [testLines, h]

/-- With `--verbose` off, the storage section is a sublist of the
verbose one. -/
theorem storageLines_sublist (m : Model) :
    (storageLines m false).Sublist (storageLines m true) := by
  cases h : m.statError <;> simp [storageLines, h]

/-- With `--verbose` off, the whole post-load report is a sublist of
the verbose report. -/
theorem bodyLines_sublist (env : Env) (m : Model) :
    (bodyLines env m false).Sublist (bodyLines env m true) := by
  unfold bodyLines
  refine ((((((((List.Sublist.refl _).append (metaLines_sublist m)).append
    (List.Sublist.refl _)).append (List.Sublist.refl _)).append
    (List.Sublist.refl _)).append (List.Sublist.refl _)).append
    (testLines_sublist m)).append (List.nil_sublist _)).append
    (storageLines_sublist m)

/-- Claim C2: for a model that loads successfully, every output line of
the non-verbose run also appears in the verbose run's output. -/
theorem c2_verbose_superset (env : Env) (name : String) (m : Model)
    (h : env.models name = some m) (line : String)
    (hl : line ∈ (mainRun env { model := name, verbose := false }).1) :
    line ∈ (mainRun env { model := name, verbose := true }).1 := by
  have hs : ((mainRun env { model := name, verbose := false }).1).Sublist
      ((mainRun env { model := name, verbose := true }).1) := by
    unfold mainRun inspect_spacy_model
    simp only [Bool.false_eq_true, if_false, h]
    exact (bodyLines_sublist env m).cons₂ _ |>.cons₂ _
  exact hs.subset hl

/-- Evaluation of `c2_verbose_superset` at a concrete model and line. -/
theorem c2_verbose_superset_witness :
    "✅ Model loaded successfully!" ∈
      (mainRun sampleEnv { model := "en_core_web_sm", verbose := true }).1 :=
  c2_verbose_superset sampleEnv "en_core_web_sm" sampleModel rfl
    "✅ Model loaded successfully!" (by decide)

/-- Claim C5: on a successful load the process exits 0 even when
secondary failures occur; a storage-size exception is reported inline
by the could-not-calculate line while the storage section header is
still printed, and a permission error on the model root's listing is
reported inline by the permission-denied line while later sections are
still produced. -/
theorem c5_secondary_failures_inline (env : Env) (name : String) (m : Model)
    (verbose : Bool) (h : env.models name = some m) :
    (mainRun env { model := name, verbose := verbose }).2 = 0 ∧
    "\n💾 Storage Information:" ∈
      (mainRun env { model := name, verbose := verbose }).1 ∧
    (∀ e, m.statError = some e →
      ("   Could not calculate size: " ++ e) ∈
        (mainRun env { model := name, verbose := verbose }).1) ∧
    (verbose = true → m.fsDenied = true →
      "└── [Permission Denied]" ∈
        (mainRun env { model := name, verbose := verbose }).1) := by
  unfold mainRun inspect_spacy_model
  refine ⟨by simp [h], ?_, ?_, ?_⟩
  · simp [h, bodyLines, storageLines]
  · intro e he
    simp [h, bodyLines, storageLines, he]
  · intro hv hd
    simp [h, hv, bodyLines, fileStructureLines, print_tree, hd]

/-- Evaluation of `c5_secondary_failures_inline` on a concrete model
with a denied root listing and a failing size computation. -/
theorem c5_secondary_failures_witness :
    (mainRun failEnv { model := "en_core_web_sm", verbose := true }).2 = 0 ∧
    "\n💾 Storage Information:" ∈
      (mainRun failEnv { model := "en_core_web_sm", verbose := true }).1 ∧
    ("   Could not calculate size: " ++ "boom") ∈
      (mainRun failEnv { model := "en_core_web_sm", verbose := true }).1 ∧
    "└── [Permission Denied]" ∈
      (mainRun failEnv { model := "en_core_web_sm", verbose := true }).1 := by
  have h := c5_secondary_failures_inline failEnv "en_core_web_sm" failModel
    true rfl
  exact ⟨h.1, h.2.1, h.2.2.1 "boom" rfl, h.2.2.2 rfl rfl⟩

/-! ### Depth bound of the tree walk (claim C9) -/

/-- Truncate a directory listing at a given remaining depth: at depth 0
nothing is kept, otherwise entry names at this level are kept and each
subdirectory's listing is truncated one level lower. -/
def truncItems : Nat → List FSItem → List FSItem
  | 0, _ => []
  | _ + 1, [] => []
  | k + 1, FSItem.file n s :: rest => FSItem.file n s :: truncItems (k + 1) rest
  | k + 1, FSItem.dir n d ch :: rest =>
      FSItem.dir n d (truncItems k ch) :: truncItems (k + 1) rest

/-- Truncation at positive depth preserves emptiness of a listing. -/
theorem truncItems_isEmpty (k : Nat) (l : List FSItem) :
    (truncItems (k + 1) l).isEmpty = l.isEmpty := by
  cases l with
  | nil => simp [truncItems]
  | cons x rest => cases x <;> simp [truncItems]

/-- The item loop of the tree walk only looks `maxd - curd` levels into
the listing: truncating deeper levels leaves its output unchanged. -/
theorem printItems_trunc (k : Nat) :
    ∀ (maxd curd : Nat) (items : List FSItem) (pre : String),
      curd < maxd → maxd - curd = k →
      printItems (truncItems k items) pre maxd curd =
        printItems items pre maxd curd := by
  induction k with
  | zero =>
    intro maxd curd items pre h1 h2
    omega
  | succ k ih =>
    intro maxd curd items pre h1 h2
    induction items with
    | nil => simp [truncItems]
    | cons item rest ihr =>
      cases item with
      | file n s =>
        simp only [truncItems, printItems, FSItem.name, truncItems_isEmpty,
          List.nil_append]
        rw [ihr]
      | dir n d ch =>
        simp only [truncItems, printItems, FSItem.name, truncItems_isEmpty,
          List.nil_append]
        rw [ihr]
        by_cases hc : curd < maxd - 1
        · simp only [hc, if_true]
          unfold print_tree
          have hg : ¬ maxd ≤ curd + 1 := by omega
          simp only [hg, if_false]
          cases d with
          | true => simp
          | false =>
            simp only [Bool.false_eq_true, if_false]
            rw [ih maxd (curd + 1) ch _ (by omega) (by omega)]
        · simp [hc]

/-- The tree walk on one directory only looks `maxd - curd` levels into
its listing. -/
theorem print_tree_trunc (k maxd curd : Nat) (d : Bool) (items : List FSItem)
    (pre : String) (h1 : curd < maxd) (h2 : maxd - curd = k) :
    print_tree d (truncItems k items) pre maxd curd =
      print_tree d items pre maxd curd := by
  unfold print_tree
  have hg : ¬ maxd ≤ curd := by omega
  simp only [hg, if_false]
  cases d with
  | true => simp
  | false =>
    simp only [Bool.false_eq_true, if_false]
    exact printItems_trunc k maxd curd items pre h1 h2

/-- Claim C9: the tree printer (a terminating function by construction:
its recursion strictly increases `current_depth`, which the guards keep
below `max_depth`) never descends more than 3 levels below the model
root: with the script's arguments `max_depth = 3`, `current_depth = 0`
its output is unchanged by truncating the tree at depth 3, and any call
starting at `current_depth ≥ 3` prints nothing. -/
theorem c9_tree_depth_bound :
    (∀ (d : Bool) (items : List FSItem) (pre : String),
      print_tree d items pre 3 0 = print_tree d (truncItems 3 items) pre 3 0) ∧
    (∀ (d : Bool) (items : List FSItem) (pre : String) (curd : Nat),
      3 ≤ curd → print_tree d items pre 3 curd = []) := by
  constructor
  · intro d items pre
    exact (print_tree_trunc 3 3 0 d items pre (by omega) rfl).symm
  · intro d items pre curd hc
    unfold print_tree
    simp [hc]

/-- A directory tree five levels deep, for exercising the depth bound. -/
def deepFS : List FSItem :=
  [FSItem.dir "a" false
    [FSItem.dir "b" false
      [FSItem.dir "c" false
        [FSItem.dir "d" false
          [FSItem.file "leaf.bin" 7]]]]]

/-- Evaluation of `c9_tree_depth_bound` on a concrete deep tree. -/
theorem c9_tree_depth_bound_witness :
    print_tree false deepFS "" 3 0 =
      print_tree false (truncItems 3 deepFS) "" 3 0 ∧
    print_tree false deepFS "" 3 3 = [] :=
  ⟨c9_tree_depth_bound.1 false deepFS "",
   c9_tree_depth_bound.2 false deepFS "" 3 (by decide)⟩

/-! ### What the report displays (claim C3) -/

/-- Formalisation of claim C3's assertion that the configuration file
is among the files read verbatim for display: there is a run whose
output changes when nothing but the loaded model's configuration
mapping changes. -/
def ConfigDisplayed : Prop :=
  ∃ (env : Env) (name : String) (m : Model) (c : List (String × String))
    (v : Bool),
    env.models name = some m ∧
    (inspect_spacy_model (setModel env name { m with config := c }) name v).1 ≠
      (inspect_spacy_model env name v).1

/-- Claim C3 fails on the code: the inspection output never depends on
the configuration mapping, so the configuration file is not read for
display. -/
theorem c3_config_not_displayed : ¬ ConfigDisplayed := by
  rintro ⟨env, name, m, c, v, hm, hne⟩
  apply hne
  unfold inspect_spacy_model
  simp only [setModel, hm, if_pos rfl]
  rfl

/-- Claim C3 as amended: the inspection displays values from a fixed
selection of metadata keys; neither the configuration mapping nor
metadata entries outside that selection influence the output. -/
theorem c3_amended_fixed_display (env : Env) (name : String) (m : Model)
    (c ex : List (String × String)) (v : Bool) :
    (inspect_spacy_model (setModel env name
        { m with config := c, extraMeta := ex }) name v).1 =
      (inspect_spacy_model (setModel env name m) name v).1 := by
  unfold inspect_spacy_model
  simp only [setModel, if_pos rfl]
  rfl

end Inspect
